import Mathlib

/-!
Shallow embedding of the expense-tracking service (FastAPI/SQLModel app under
`app/`), covering the parts needed to settle the frozen claims: string
normalization, the data model, token issuance/decoding, the authentication
dependency, user registration, and the expense CRUD handlers.

Modelling conventions:
- Python `str` is modelled as Lean `String` (lists of characters where proofs
  need structure); `str.strip`/`str.lower` are modelled on the ASCII range,
  which is all the claims exercise.
- Python `float` amounts are modelled as `Rat`: amounts are only stored and
  compared, never subjected to floating-point arithmetic, in the code paths
  under study.
- User identifiers are modelled as `Nat`: the source stores
  `str(user.user_id)` in the expense row and compares it against either
  `str(current_user.user_id)` or the raw integer; under SQLite column
  affinity both comparisons coincide with numeric equality.  Expense
  primary keys are UUIDs, modelled as `String`; the id-addressed routes
  declare `expense_id: int`, and the embedding models the resulting
  path-converter and GUID-bind failures explicitly (`expense_id_param`,
  `guidBind`).
- A database table is a `List` of rows; a query is a pure function on it; a
  handler returns `Except HttpError result` (an `HTTPException` raised in the
  Python handler is the `.error` case).
-/

namespace FastapiExpense

/-! ## Python string primitives (ASCII fragment)

`str.strip()` removes leading and trailing whitespace; `str.lower()` maps
uppercase letters to lowercase.  The embedding fixes the ASCII whitespace set
`" \t\n\r\x0b\x0c"` used by CPython for ASCII text. -/

/-- Characters removed by Python `str.strip()` (ASCII whitespace). -/
def pySpace (c : Char) : Bool :=
  c == ' ' || c == '\t' || c == '\n' || c == '\r' || c == '\x0b' || c == '\x0c'

/-- One character of Python `str.lower()` on the ASCII range: uppercase
letters `A`–`Z` (codepoints 65–90) map 32 codepoints up; everything else is
fixed. -/
def lowerChar (c : Char) : Char :=
  if 65 ≤ c.toNat ∧ c.toNat ≤ 90 then Char.ofNat (c.toNat + 32) else c

/-- Drop leading characters satisfying `pySpace` (the left half of
`str.strip()`). -/
def ltrim (l : List Char) : List Char := l.dropWhile pySpace

/-- Drop trailing characters satisfying `pySpace` (the right half of
`str.strip()`). -/
def rtrim (l : List Char) : List Char := (l.reverse.dropWhile pySpace).reverse

/-- Python `value.strip()` on a character list. -/
def pyStrip (l : List Char) : List Char := rtrim (ltrim l)

/-- Python `value.lower()` on a character list (ASCII fragment). -/
def pyLower (l : List Char) : List Char := l.map lowerChar

/-- Embedding of `ExpenseBase.normalize_category` (`app/models/expense.py`):
`value.strip().lower()`. -/
def normalize_category (value : String) : String :=
  ⟨pyLower (pyStrip value.data)⟩

/-- Embedding of `ExpenseBase.normalize_vendor` (`app/models/expense.py`):
`value.strip()`. -/
def normalize_vendor (value : String) : String :=
  ⟨pyStrip value.data⟩

/-! ## Data model -/

/-- An `HTTPException` raised by a handler: status code plus detail string. -/
structure HttpError where
  status_code : Nat
  detail : String
deriving Repr, DecidableEq

/-- The `User` table row (`app/models/user.py`).  Fields not consulted by any
handler under study (superuser flag, timestamps) are omitted. -/
structure User where
  user_id : Nat
  email : String
  hashed_password : String
  is_active : Bool
deriving Repr, DecidableEq

/-- The `Expense` table row (`app/models/expense.py`): the persisted columns.
The source's primary key is a UUID and `user_id` is stored as
`str(user.user_id)`; identifiers are modelled as `String` and `Nat`
respectively (see the header comment on column affinity). -/
structure Expense where
  id : String
  user_id : Nat
  amount : Rat
  category : String
  vendor : String
  currency_id : String
deriving Repr, DecidableEq

/-- The `ExpenseCreate` request schema (`app/schemas/expense.py`).  It subclasses
`SQLModel` directly — not `ExpenseBase` — so it declares *no* `gt=0` bound on
`amount` and carries *none* of the normalization validators: request-body
validation only checks the field types. -/
structure ExpenseCreate where
  amount : Rat
  category : String
  vendor : String
  currency_id : String
deriving Repr, DecidableEq

/-- The `ExpenseUpdate` request schema (`app/schemas/expense.py`): every field
optional, defaulting to unset (`none`).  Note the fourth field is named
`currency`, not `currency_id`. -/
structure ExpenseUpdate where
  amount : Option Rat := none
  category : Option String := none
  vendor : Option String := none
  currency : Option String := none
deriving Repr, DecidableEq

/-- The `UserRead` response schema (`app/schemas/user.py`). -/
structure UserRead where
  user_id : Nat
  email : String
  is_active : Bool
deriving Repr, DecidableEq

/-! ## Settings and JWT primitives (`app/core/config.py`, `app/core/security.py`) -/

/-- The settings fields consulted by the security module
(`app/core/config.py` defaults). -/
structure Settings where
  secret_key : String
  algorithm : String
  access_token_expire_minutes : Int
deriving Repr, DecidableEq

/-- Default `Settings` values from `app/core/config.py`. -/
def settings : Settings :=
  { secret_key := "dev-secret-key-change-in-production"
    algorithm := "HS256"
    access_token_expire_minutes := 30 }

/-- The JWT claim set built by `create_access_token`: `sub`, `iat`, `exp`,
optional `email`.  `sub` is optional here because `decode_access_token`
returns an arbitrary payload dict and `get_current_user` reads both claims
with `.get`.  Timestamps are epoch seconds (`Int`). -/
structure TokenPayload where
  sub : Option String := none
  email : Option String := none
  iat : Int := 0
  exp : Int := 0
deriving Repr, DecidableEq

/-- A signed token: the claim set together with the key and algorithm it was
signed with.  The signing primitive is opaque in the source (`jose.jwt`); the
embedding records exactly what the signature binds. -/
structure Jwt where
  payload : TokenPayload
  key : String
  alg : String
deriving Repr, DecidableEq

/-- Stand-in for the opaque bcrypt primitive `hash_password`
(`app/core/security.py`): the claims under study never inspect digests, only
that the stored value is the hash of the plaintext. -/
def hash_password (password : String) : String :=
  "$bcrypt$" ++ password

/-- Embedding of `create_access_token` (`app/core/security.py`): claim set
`{sub := subject, iat := now, exp := now + ttl, email?}`, signed with the
configured secret and algorithm.  `now` is the current epoch second;
`expires_delta` is a TTL in seconds, defaulting to
`settings.access_token_expire_minutes` minutes.  Both optionals follow
Python truthiness: the email claim is added only when `email` is truthy
(`if email:` — absent or empty string means no claim), and the TTL falls
back to the default when `expires_delta` is absent *or zero*
(`expires_delta if expires_delta else timedelta(...)` — `timedelta(0)` is
falsy). -/
def create_access_token (subject : String) (email : Option String)
    (expires_delta : Option Int) (now : Int) : Jwt :=
  let ttl := match expires_delta with
    | some d => if d == 0 then settings.access_token_expire_minutes * 60 else d
    | none => settings.access_token_expire_minutes * 60
  let emailClaim := match email with
    | some e => if e == "" then none else some e
    | none => none
  { payload := { sub := some subject, email := emailClaim, iat := now, exp := now + ttl }
    key := settings.secret_key
    alg := settings.algorithm }

/-- Embedding of `decode_access_token` (`app/core/security.py`): `jose.jwt.decode` with the
configured secret and algorithm list.  It fails (a `JWTError` mapped to
`ValueError "Invalid or expired token"`) when the key or algorithm does not
match or the `exp` claim is in the past; otherwise it returns the claim
set. -/
def decode_access_token (token : Jwt) (now : Int) : Except String TokenPayload :=
  if token.key == settings.secret_key && token.alg == settings.algorithm
      && decide (now ≤ token.payload.exp) then
    .ok token.payload
  else
    .error "Invalid or expired token"

/-! ## User CRUD helpers (`app/helpers/crud_user.py`) -/

/-- Python truthiness of an optional string: `None` and `""` are falsy. -/
def pyTruthy : Option String → Bool
  | none => false
  | some s => !(s == "")

/-- Embedding of `get_user_by_email`: first user whose (already lowercased) stored email
equals `email.lower()`. -/
def get_user_by_email (db : List User) (email : String) : Option User :=
  db.find? (fun u => u.email == ⟨pyLower email.data⟩)

/-- Decimal reading of a digit string, accumulator-style: `some`
exactly when every character is a digit `0`–`9`. -/
def decimalAux : List Char → Nat → Option Nat
  | [], acc => some acc
  | c :: t, acc =>
      if 48 ≤ c.toNat ∧ c.toNat ≤ 57 then
        decimalAux t (acc * 10 + (c.toNat - 48))
      else
        none

/-- Value of a nonempty all-digit string, else `none`. -/
def decimalNat : List Char → Option Nat
  | [] => none
  | l => decimalAux l 0

/-- Embedding of `get_user_by_id`: `session.get(User, user_id)` — primary-key lookup.  The
caller passes the token's `sub` claim, a string; SQLite integer affinity
coerces a decimal string to the integer key, and any value `session.get`
rejects is caught (`except Exception: return None`), yielding no user. -/
def get_user_by_id (db : List User) (user_id : String) : Option User :=
  match decimalNat user_id.data with
  | some n => db.find? (fun u => u.user_id == n)
  | none => none

/-- Embedding of `create_user`: normalizes the email (`strip().lower()`), hashes the
password and inserts.  `dbAtInsert` is the table contents at commit time; a
unique-constraint violation on email (`IntegrityError`) is converted to a
409 conflict.  `freshId` is the auto-assigned primary key. -/
def create_user (dbAtInsert : List User) (freshId : Nat)
    (email password : String) : Except HttpError (User × List User) :=
  let normalized_email : String := ⟨pyLower (pyStrip email.data)⟩
  if dbAtInsert.any (fun u => u.email == normalized_email) then
    .error { status_code := 409, detail := "A user with this email already exists" }
  else
    let u : User :=
      { user_id := freshId, email := normalized_email
        hashed_password := hash_password password, is_active := true }
    .ok (u, dbAtInsert ++ [u])

/-! ## Authentication dependency (`app/core/dependencies.py`) -/

/-- Embedding of `get_current_user`: decode the bearer token (a decode failure is a 401),
read the `sub` and `email` claims, reject when both are falsy (401), look up
by id first and fall back to email, reject unknown users (401) and inactive
accounts (403 — `status.HTTP_403_FORBIDDEN` in the source). -/
def get_current_user (db : List User) (token : Jwt) (now : Int) :
    Except HttpError User :=
  match decode_access_token token now with
  | .error _ =>
      .error { status_code := 401, detail := "Invalid authentication credentials" }
  | .ok payload =>
      let user_id := payload.sub
      let email := payload.email
      if !pyTruthy user_id && !pyTruthy email then
        .error { status_code := 401, detail := "Invalid token payload" }
      else
        let fromId : Option User :=
          if pyTruthy user_id then get_user_by_id db (user_id.getD "") else none
        let found : Option User :=
          match fromId with
          | some u => some u
          | none => if pyTruthy email then get_user_by_email db (email.getD "") else none
        match found with
        | none => .error { status_code := 401, detail := "User not found" }
        | some u =>
            if !u.is_active then
              .error { status_code := 403, detail := "User account is inactive" }
            else
              .ok u

/-! ## Registration handler (`app/routers/auth.py`) -/

/-- Embedding of `register`: password-length policy, pre-insert duplicate check, then
`create_user`.  `dbAtCheck` is the table contents the pre-check reads and
`dbAtInsert` the contents at commit time; they differ exactly when a
concurrent registration commits in between (the race discussed in the
spec). -/
def register (dbAtCheck dbAtInsert : List User) (freshId : Nat)
    (email password : String) : Except HttpError UserRead :=
  if password.length < 8 then
    .error { status_code := 400, detail := "Password must be at least 8 characters long" }
  else if (get_user_by_email dbAtCheck email).isSome then
    .error { status_code := 400, detail := "Email already registered" }
  else
    match create_user dbAtInsert freshId email password with
    | .error e => .error e
    | .ok (u, _) => .ok { user_id := u.user_id, email := u.email, is_active := u.is_active }

/-! ## Expense routes (`app/routers/expenses.py`)

Handlers receive the authenticated caller's numeric user id (`uid`); the
router wires `get_current_user` in front of every endpoint.

The id-addressed routes declare their path parameter as `expense_id: int`
while `Expense.id` is a UUID primary key.  Two consequences, modelled
explicitly below: a UUID path segment never passes the int path converter
(the framework answers 422 before the handler runs), and an int that does
pass is bind-processed through the GUID column type, where `uuid.UUID`
raises for every int, so the owner-scoped select raises before matching any
row and the handler's 404 and success branches are dead code. -/

/-- Client-visible outcome of a route: a 2xx with a body, a raised
`HTTPException`, the framework's 422 for a request that fails
parsing/conversion, or a 500 from an exception no handler catches. -/
inductive RouteOutcome (α : Type) where
  | ok (a : α)
  | httpError (e : HttpError)
  | validationError
  | serverError
deriving Repr, DecidableEq

/-- The 404 raised by `get_expense_or_404`. -/
def expenseNotFound : HttpError :=
  { status_code := 404, detail := "Expense not found" }

/-- FastAPI's conversion of a path segment for `expense_id: int`: an
optional leading minus sign followed by decimal digits.  A UUID path
segment (hex letters, interior hyphens) never parses, so such requests are
answered with a 422 before the handler body runs. -/
def expense_id_param (s : String) : Option Int :=
  match s.data with
  | '-' :: rest => (decimalNat rest).map (fun n => -(n : Int))
  | l => (decimalNat l).map (fun n => (n : Int))

/-- Bind processing of the int path parameter against the GUID-typed `id`
column (`Expense.id == expense_id` inside `get_expense_or_404`).
SQLModel's GUID/Uuid column type converts a non-UUID bound value through
`uuid.UUID`, which raises for every int, so no int ever binds
successfully. -/
def guidBind (_i : Int) : Option String :=
  none

/-- Embedding of `get_expense_or_404`: select the first row with
`id == expense_id AND user_id == uid`, else raise the shared 404.  The
select first binds the int `expense_id` against the GUID `id` column;
`guidBind` fails for every int, there is no try/except around the select,
so the exception propagates out of the handler (a 500 to the client) and
the 404 and success branches below are unreachable in the source. -/
def get_expense_or_404 (db : List Expense) (expense_id : Int) (uid : Nat) :
    RouteOutcome Expense :=
  match guidBind expense_id with
  | none => .serverError
  | some bound =>
      match db.find? (fun e => e.id == bound && e.user_id == uid) with
      | some e => .ok e
      | none => .httpError expenseNotFound

/-- Embedding of `create_expense`: builds `Expense(**expense_data.model_dump(),
user_id=str(current_user.user_id))` and commits.  `Expense` is a
`table=True` SQLModel: SQLModel documents that table models perform *no*
validation on instantiation, so the `Field(gt=0)` bound and the
`normalize_category` / `normalize_vendor` validators declared on
`ExpenseBase` never run on this path — every field of the request schema is
stored verbatim.  `freshId` is the server-generated primary key. -/
def create_expense (db : List Expense) (freshId : String)
    (expense_data : ExpenseCreate) (uid : Nat) :
    Except HttpError (Expense × List Expense) :=
  let e : Expense :=
    { id := freshId, user_id := uid, amount := expense_data.amount
      category := expense_data.category, vendor := expense_data.vendor
      currency_id := expense_data.currency_id }
  .ok (e, db ++ [e])

/-- The `setattr` loop of `update_expense` over
`expense_data.model_dump(exclude_unset=True)`: each field present in the
payload is assigned onto the row object.  The payload key `currency` does not
name a mapped column of `Expense` (the column is `currency_id`), so that
assignment creates only a transient Python attribute and the persisted row is
unchanged by it. -/
def applyUpdate (e : Expense) (u : ExpenseUpdate) : Expense :=
  { e with
    amount := u.amount.getD e.amount
    category := u.category.getD e.category
    vendor := u.vendor.getD e.vendor }

/-- Embedding of `update_expense` (`PUT /expenses/{expense_id}` with
`expense_id: int`): path conversion, owner-scoped fetch, then the
partial-update loop and commit.  Returns the client-visible outcome
together with the table after the request; every non-success exit leaves
the table unchanged, and with `get_expense_or_404` as above the success
branch is dead code. -/
def update_expense (db : List Expense) (raw_expense_id : String)
    (expense_data : ExpenseUpdate) (uid : Nat) :
    RouteOutcome Expense × List Expense :=
  match expense_id_param raw_expense_id with
  | none => (.validationError, db)
  | some n =>
      match get_expense_or_404 db n uid with
      | .ok e =>
          let e2 := applyUpdate e expense_data
          (.ok e2, db.map (fun x => if x.id == e.id then e2 else x))
      | .httpError err => (.httpError err, db)
      | .validationError => (.validationError, db)
      | .serverError => (.serverError, db)

/-- Embedding of `delete_expense` (`DELETE /expenses/{expense_id}`): path
conversion, owner-scoped fetch, then delete of the fetched row. -/
def delete_expense (db : List Expense) (raw_expense_id : String) (uid : Nat) :
    RouteOutcome Unit × List Expense :=
  match expense_id_param raw_expense_id with
  | none => (.validationError, db)
  | some n =>
      match get_expense_or_404 db n uid with
      | .ok e => (.ok (), db.filter (fun x => !(x.id == e.id)))
      | .httpError err => (.httpError err, db)
      | .validationError => (.validationError, db)
      | .serverError => (.serverError, db)

/-- Embedding of `get_expense` (`GET /expenses/{expense_id}` with
`expense_id: int`): path conversion, then `get_expense_or_404`. -/
def get_expense (db : List Expense) (raw_expense_id : String) (uid : Nat) :
    RouteOutcome Expense :=
  match expense_id_param raw_expense_id with
  | none => .validationError
  | some n => get_expense_or_404 db n uid

end FastapiExpense

namespace FastapiExpense

theorem toNat_ofNat_valid (n : Nat) (h : n.isValidChar) :
    (Char.ofNat n).toNat = n := by
  unfold Char.ofNat
  rw [dif_pos h]
  rfl

theorem char_toNat_inj {a b : Char} (h : a.toNat = b.toNat) : a = b := by
  calc a = Char.ofNat a.toNat := (Char.ofNat_toNat a).symm
    _ = Char.ofNat b.toNat := by rw [h]
    _ = b := Char.ofNat_toNat b

theorem lowerChar_toNat_of_upper (c : Char) (h : 65 ≤ c.toNat ∧ c.toNat ≤ 90) :
    (lowerChar c).toNat = c.toNat + 32 := by
  unfold lowerChar
  rw [if_pos h]
  have hv : (c.toNat + 32).isValidChar := by
    left
    omega
  exact toNat_ofNat_valid _ hv

theorem lowerChar_eq_self (c : Char) (h : ¬(65 ≤ c.toNat ∧ c.toNat ≤ 90)) :
    lowerChar c = c := by
  unfold lowerChar
  rw [if_neg h]

theorem lowerChar_idem (c : Char) : lowerChar (lowerChar c) = lowerChar c := by
  by_cases h : 65 ≤ c.toNat ∧ c.toNat ≤ 90
  · have ht := lowerChar_toNat_of_upper c h
    apply lowerChar_eq_self
    omega
  · rw [lowerChar_eq_self c h]
    exact lowerChar_eq_self c h

theorem pySpace_false_of_letter (c : Char) (h65 : 65 ≤ c.toNat)
    (h122 : c.toNat ≤ 122) : pySpace c = false := by
  unfold pySpace
  simp only [Bool.or_eq_false_iff, beq_eq_false_iff_ne, ne_eq]
  refine ⟨⟨⟨⟨⟨?_, ?_⟩, ?_⟩, ?_⟩, ?_⟩, ?_⟩ <;>
    · intro he
      subst he
      exact absurd h65 (by decide)

theorem pySpace_lowerChar (c : Char) : pySpace (lowerChar c) = pySpace c := by
  by_cases h : 65 ≤ c.toNat ∧ c.toNat ≤ 90
  · have ht := lowerChar_toNat_of_upper c h
    rw [pySpace_false_of_letter c h.1 (by omega)]
    rw [pySpace_false_of_letter (lowerChar c) (by omega) (by omega)]
  · rw [lowerChar_eq_self c h]

theorem dropWhile_self (p : Char → Bool) (l : List Char) :
    (l.dropWhile p).dropWhile p = l.dropWhile p := by
  induction l with
  | nil => rfl
  | cons a t ih =>
    by_cases h : p a
    · rw [List.dropWhile_cons_of_pos h]
      exact ih
    · rw [List.dropWhile_cons_of_neg h, List.dropWhile_cons_of_neg h]

theorem ltrim_idem (l : List Char) : ltrim (ltrim l) = ltrim l :=
  dropWhile_self pySpace l

theorem rtrim_idem (l : List Char) : rtrim (rtrim l) = rtrim l := by
  unfold rtrim
  rw [List.reverse_reverse, dropWhile_self]

theorem rtrim_cons_of_neg {a : Char} {t : List Char} (h : ¬ pySpace a) :
    rtrim (a :: t) = a :: rtrim t := by
  unfold rtrim
  rw [List.reverse_cons, List.dropWhile_append]
  by_cases he : (t.reverse.dropWhile pySpace).isEmpty
  · rw [if_pos he, List.dropWhile_cons_of_neg h]
    have : t.reverse.dropWhile pySpace = [] := by
      simpa [List.isEmpty_iff] using he
    simp [this]
  · rw [if_neg he]
    simp

theorem ltrim_rtrim_of_ltrimmed {m : List Char} (h : ltrim m = m) :
    ltrim (rtrim m) = rtrim m := by
  cases m with
  | nil => rfl
  | cons a t =>
    have ha : pySpace a = false := by
      by_contra hc
      have hp : pySpace a = true := by
        revert hc
        cases pySpace a <;> simp
      unfold ltrim at h
      rw [List.dropWhile_cons_of_pos hp] at h
      have := (List.dropWhile_sublist (l := t) pySpace).length_le
      have h2 := congrArg List.length h
      simp at h2
      omega
    have ha2 : ¬ pySpace a := by simp [ha]
    rw [rtrim_cons_of_neg ha2]
    unfold ltrim
    rw [List.dropWhile_cons_of_neg ha2]

theorem pyStrip_idem (l : List Char) : pyStrip (pyStrip l) = pyStrip l := by
  unfold pyStrip
  rw [ltrim_rtrim_of_ltrimmed (ltrim_idem l), rtrim_idem]

theorem ltrim_pyLower (l : List Char) : ltrim (pyLower l) = pyLower (ltrim l) := by
  unfold ltrim pyLower
  rw [List.dropWhile_map]
  rw [show pySpace ∘ lowerChar = pySpace from funext pySpace_lowerChar]

theorem rtrim_pyLower (l : List Char) : rtrim (pyLower l) = pyLower (rtrim l) := by
  unfold rtrim pyLower
  rw [← List.map_reverse, List.dropWhile_map, ← List.map_reverse]
  rw [show pySpace ∘ lowerChar = pySpace from funext pySpace_lowerChar]

theorem pyStrip_pyLower (l : List Char) :
    pyStrip (pyLower l) = pyLower (pyStrip l) := by
  unfold pyStrip
  rw [ltrim_pyLower, rtrim_pyLower]

theorem pyLower_idem (l : List Char) : pyLower (pyLower l) = pyLower l := by
  unfold pyLower
  rw [List.map_map]
  apply List.map_congr_left
  intro c _
  exact lowerChar_idem c

/-- C9: category normalization (`value.strip().lower()`) is idempotent, and
`normalize("  FOOD ") = "food"`. -/
theorem c9_normalize_category_idempotent :
    (∀ x : String, normalize_category (normalize_category x) = normalize_category x) ∧
    normalize_category "  FOOD " = "food" := by
  constructor
  · intro x
    show (⟨pyLower (pyStrip (pyLower (pyStrip x.data)))⟩ : String)
        = ⟨pyLower (pyStrip x.data)⟩
    rw [pyStrip_pyLower, pyLower_idem, pyStrip_idem]
  · decide

/-- C1 evaluation: the code accepts a creation request with `amount = -5`
and stores the expense.  `ExpenseCreate` declares no bound on `amount` and
the table model skips validation, so no validation error is raised and the
row is persisted with the non-positive amount. -/
theorem c1_create_accepts_nonpositive_amount :
    create_expense [] "e1"
        { amount := -5, category := "food", vendor := "shop", currency_id := "INR" } 1
      = .ok ({ id := "e1", user_id := 1, amount := -5, category := "food",
               vendor := "shop", currency_id := "INR" },
             [{ id := "e1", user_id := 1, amount := -5, category := "food",
                vendor := "shop", currency_id := "INR" }]) := rfl

/-- C2 evaluation: creating with category `"Food "` and vendor `" Swiggy "`
stores both verbatim — the `normalize_category` / `normalize_vendor`
validators of `ExpenseBase` do not run for the `table=True` model the route
instantiates, so the stored category is not `"food"`. -/
theorem c2_create_stores_unnormalized_fields :
    create_expense [] "e1"
        { amount := 21/2, category := "Food ", vendor := " Swiggy ", currency_id := "INR" } 1
      = .ok ({ id := "e1", user_id := 1, amount := 21/2, category := "Food ",
               vendor := " Swiggy ", currency_id := "INR" },
             [{ id := "e1", user_id := 1, amount := 21/2, category := "Food ",
                vendor := " Swiggy ", currency_id := "INR" }]) ∧
    normalize_category "Food " = "food" ∧
    normalize_vendor " Swiggy " = "Swiggy" ∧
    ("Food " : String) ≠ "food" ∧ (" Swiggy " : String) ≠ "Swiggy" := by
  refine ⟨rfl, by decide, by decide, by decide, by decide⟩

/-- C3 evaluation at the failing input: the id-addressed expense routes can
never produce the ownership-scoped 404.  User 2's get/update/delete on user
1's expense id (a UUID) are answered 422 by the `expense_id: int` path
converter — exactly as the owner's own request and as a request against an
empty store — and an integer id crashes in GUID bind processing (a 500),
again regardless of what the store contains.  No outcome equals the 404
"Expense not found" that the claim and `get_expense_or_404`'s docstring
describe. -/
theorem c3_expense_routes_never_reach_404 :
    get_expense [{ id := "9d9b57d2-6c3a-4f1e-9a2b-0c1d2e3f4a5b", user_id := 1, amount := 5, category := "food", vendor := "shop", currency_id := "INR" }] "9d9b57d2-6c3a-4f1e-9a2b-0c1d2e3f4a5b" 2 = .validationError ∧
    get_expense [{ id := "9d9b57d2-6c3a-4f1e-9a2b-0c1d2e3f4a5b", user_id := 1, amount := 5, category := "food", vendor := "shop", currency_id := "INR" }] "9d9b57d2-6c3a-4f1e-9a2b-0c1d2e3f4a5b" 1 = .validationError ∧
    get_expense [] "9d9b57d2-6c3a-4f1e-9a2b-0c1d2e3f4a5b" 2 = .validationError ∧
    get_expense [{ id := "9d9b57d2-6c3a-4f1e-9a2b-0c1d2e3f4a5b", user_id := 1, amount := 5, category := "food", vendor := "shop", currency_id := "INR" }] "5" 2 = .serverError ∧
    get_expense [] "5" 2 = .serverError ∧
    (update_expense [{ id := "9d9b57d2-6c3a-4f1e-9a2b-0c1d2e3f4a5b", user_id := 1, amount := 5, category := "food", vendor := "shop", currency_id := "INR" }] "9d9b57d2-6c3a-4f1e-9a2b-0c1d2e3f4a5b" {} 2).1 = .validationError ∧
    (update_expense [{ id := "9d9b57d2-6c3a-4f1e-9a2b-0c1d2e3f4a5b", user_id := 1, amount := 5, category := "food", vendor := "shop", currency_id := "INR" }] "5" {} 2).1 = .serverError ∧
    (delete_expense [{ id := "9d9b57d2-6c3a-4f1e-9a2b-0c1d2e3f4a5b", user_id := 1, amount := 5, category := "food", vendor := "shop", currency_id := "INR" }] "9d9b57d2-6c3a-4f1e-9a2b-0c1d2e3f4a5b" 2).1 = .validationError ∧
    (delete_expense [{ id := "9d9b57d2-6c3a-4f1e-9a2b-0c1d2e3f4a5b", user_id := 1, amount := 5, category := "food", vendor := "shop", currency_id := "INR" }] "5" 2).1 = .serverError ∧
    (RouteOutcome.validationError : RouteOutcome Expense)
      ≠ .httpError expenseNotFound ∧
    (RouteOutcome.serverError : RouteOutcome Expense)
      ≠ .httpError expenseNotFound := by
  refine ⟨rfl, rfl, rfl, rfl, rfl, rfl, rfl, rfl, rfl, by decide, by decide⟩

/-- C6 evaluation at the failing input: no partial update ever occurs in
the source.  Updating the stored expense through its own (UUID) id with
payload `{"amount": 20}` is rejected by the `expense_id: int` path
converter (422) and the table is unchanged; an integer id crashes in GUID
bind processing (500) and the table is again unchanged.  The handler's
docstring ("Supports partial updates") and the claim describe a
field-overwriting success path the program cannot reach. -/
theorem c6_update_route_never_updates :
    update_expense [{ id := "9d9b57d2-6c3a-4f1e-9a2b-0c1d2e3f4a5b", user_id := 1, amount := 5, category := "food", vendor := "shop", currency_id := "INR" }] "9d9b57d2-6c3a-4f1e-9a2b-0c1d2e3f4a5b" { amount := some 20 } 1
      = (.validationError, [{ id := "9d9b57d2-6c3a-4f1e-9a2b-0c1d2e3f4a5b", user_id := 1, amount := 5, category := "food", vendor := "shop", currency_id := "INR" }]) ∧
    update_expense [{ id := "9d9b57d2-6c3a-4f1e-9a2b-0c1d2e3f4a5b", user_id := 1, amount := 5, category := "food", vendor := "shop", currency_id := "INR" }] "5" { amount := some 20 } 1
      = (.serverError, [{ id := "9d9b57d2-6c3a-4f1e-9a2b-0c1d2e3f4a5b", user_id := 1, amount := 5, category := "food", vendor := "shop", currency_id := "INR" }]) := by
  exact ⟨rfl, rfl⟩

/-- C10: the currency of an existing expense cannot be changed through the
update endpoint.  For every store, path id, currency value and caller, an
update payload supplying only `currency` leaves the stored table — in
particular every row's `currency_id` — unchanged: no request reaches a
commit (path conversion or GUID bind fails first), and even the handler's
field-assignment loop maps the payload key `currency` to no stored column
of `Expense`, so it leaves the fetched row unchanged. -/
theorem c10_currency_update_cannot_change_currency_id :
    (∀ (db : List Expense) (raw c : String) (uid : Nat),
      (update_expense db raw { currency := some c } uid).2 = db) ∧
    (∀ (e : Expense) (c : String), applyUpdate e { currency := some c } = e) := by
  constructor
  · intro db raw c uid
    unfold update_expense
    cases hp : expense_id_param raw with
    | none => rfl
    | some n => rfl
  · intro e c
    rfl

/-- C4 counterexample: a valid token for an existing but inactive account is
rejected with HTTP 403 (`status.HTTP_403_FORBIDDEN` in
`get_current_user`), not 401 — so not every authentication failure is
surfaced as 401. -/
theorem c4_counterexample_inactive_account_is_403 :
    get_current_user [{ user_id := 1, email := "a@x.com",
                        hashed_password := "h", is_active := false }]
        { payload := { sub := some "1", email := none, iat := 0, exp := 100 }
          key := "dev-secret-key-change-in-production", alg := "HS256" } 0
      = .error { status_code := 403, detail := "User account is inactive" } ∧
    (403 : Nat) ≠ 401 := by
  refine ⟨rfl, by decide⟩

/-- C4 amended: every failure of the authentication dependency is surfaced
as 401 except an inactive account, which is surfaced as 403 with detail
"User account is inactive". -/
theorem c4_auth_failures_401_except_inactive_403
    (db : List User) (token : Jwt) (now : Int) (err : HttpError)
    (h : get_current_user db token now = .error err) :
    err.status_code = 401 ∨
      err = { status_code := 403, detail := "User account is inactive" } := by
  unfold get_current_user at h
  split at h
  · left
    cases h
    rfl
  · dsimp only at h
    split at h
    · left
      cases h
      rfl
    · split at h
      · left
        cases h
        rfl
      · split at h
        · right
          cases h
          rfl
        · cases h

/-- Witness for C4 amended, at a token whose bearer is unknown: the failure
is a 401. -/
theorem c4_amended_witness :
    ({ status_code := 401, detail := "User not found" } : HttpError).status_code = 401 ∨
      ({ status_code := 401, detail := "User not found" } : HttpError)
        = { status_code := 403, detail := "User account is inactive" } :=
  c4_auth_failures_401_except_inactive_403 []
    { payload := { sub := some "1", email := none, iat := 0, exp := 100 }
      key := "dev-secret-key-change-in-production", alg := "HS256" } 0
    { status_code := 401, detail := "User not found" } rfl

/-- C5: given a token whose signature verifies (decode succeeds with claim
set `p`), the dependency (1) fails with the malformed-payload error when
both `sub` and `email` are absent (Python-falsy), (2) resolves an id-lookup
hit regardless of the email claim, (3) falls back to the email lookup only
when the id lookup produced nothing and an email claim is present, (4)
fails with the user-not-found error when neither lookup matches, and in a
hit returns the user when active and the account-inactive error otherwise.
The dependency performs no writes: the embedding returns no modified
table. -/
theorem c5_auth_dependency_resolution
    (db : List User) (token : Jwt) (now : Int) (p : TokenPayload)
    (hdec : decode_access_token token now = .ok p) :
    (pyTruthy p.sub = false → pyTruthy p.email = false →
      get_current_user db token now
        = .error { status_code := 401, detail := "Invalid token payload" }) ∧
    (∀ u, pyTruthy p.sub = true → get_user_by_id db (p.sub.getD "") = some u →
      get_current_user db token now
        = if u.is_active then .ok u
          else .error { status_code := 403, detail := "User account is inactive" }) ∧
    (∀ u, pyTruthy p.email = true →
      (pyTruthy p.sub = true → get_user_by_id db (p.sub.getD "") = none) →
      get_user_by_email db (p.email.getD "") = some u →
      get_current_user db token now
        = if u.is_active then .ok u
          else .error { status_code := 403, detail := "User account is inactive" }) ∧
    ((pyTruthy p.sub = true ∨ pyTruthy p.email = true) →
      (pyTruthy p.sub = true → get_user_by_id db (p.sub.getD "") = none) →
      (pyTruthy p.email = true → get_user_by_email db (p.email.getD "") = none) →
      get_current_user db token now
        = .error { status_code := 401, detail := "User not found" }) := by
  have hg : get_current_user db token now =
      (if !pyTruthy p.sub && !pyTruthy p.email then
        .error { status_code := 401, detail := "Invalid token payload" }
      else
        match
          (match (if pyTruthy p.sub then get_user_by_id db (p.sub.getD "") else none) with
           | some u => some u
           | none => if pyTruthy p.email then get_user_by_email db (p.email.getD "") else none) with
        | none => .error { status_code := 401, detail := "User not found" }
        | some u =>
            if !u.is_active then
              .error { status_code := 403, detail := "User account is inactive" }
            else
              .ok u) := by
    unfold get_current_user
    rw [hdec]
  refine ⟨?_, ?_, ?_, ?_⟩
  · intro hs he
    rw [hg]
    simp [hs, he]
  · intro u hs hid
    rw [hg]
    cases hua : u.is_active <;> simp [hs, hid, hua]
  · intro u he hidn hem
    rw [hg]
    by_cases hs : pyTruthy p.sub = true
    · cases hua : u.is_active <;> simp [hs, he, hidn hs, hem, hua]
    · have hs2 : pyTruthy p.sub = false := by
        revert hs
        cases pyTruthy p.sub <;> simp
      cases hua : u.is_active <;> simp [hs2, he, hem, hua]
  · intro hor hidn hemn
    rw [hg]
    by_cases hs : pyTruthy p.sub = true
    · by_cases he : pyTruthy p.email = true
      · simp [hs, he, hidn hs, hemn he]
      · have he2 : pyTruthy p.email = false := by
          revert he
          cases pyTruthy p.email <;> simp
        simp [hs, he2, hidn hs]
    · have hs2 : pyTruthy p.sub = false := by
        revert hs
        cases pyTruthy p.sub <;> simp
      have he : pyTruthy p.email = true := by
        cases hor with
        | inl h => exact absurd h hs
        | inr h => exact h
      simp [hs2, he, hemn he]

/-- Witness for C5 at a concrete store and token: the subject claim "1"
resolves user 1, who is active and is returned. -/
theorem c5_witness :
    (pyTruthy (some "1") = false → pyTruthy (none : Option String) = false →
      get_current_user [{ user_id := 1, email := "a@x.com",
                          hashed_password := "h", is_active := true }]
          { payload := { sub := some "1", email := none, iat := 0, exp := 100 }
            key := "dev-secret-key-change-in-production", alg := "HS256" } 0
        = .error { status_code := 401, detail := "Invalid token payload" }) ∧
    (∀ u, pyTruthy (some "1") = true →
      get_user_by_id [{ user_id := 1, email := "a@x.com",
                        hashed_password := "h", is_active := true }]
          ((some "1").getD "") = some u →
      get_current_user [{ user_id := 1, email := "a@x.com",
                          hashed_password := "h", is_active := true }]
          { payload := { sub := some "1", email := none, iat := 0, exp := 100 }
            key := "dev-secret-key-change-in-production", alg := "HS256" } 0
        = if u.is_active then .ok u
          else .error { status_code := 403, detail := "User account is inactive" }) ∧
    (∀ u, pyTruthy (none : Option String) = true →
      (pyTruthy (some "1") = true →
        get_user_by_id [{ user_id := 1, email := "a@x.com",
                          hashed_password := "h", is_active := true }]
            ((some "1").getD "") = none) →
      get_user_by_email [{ user_id := 1, email := "a@x.com",
                           hashed_password := "h", is_active := true }]
          ((none : Option String).getD "") = some u →
      get_current_user [{ user_id := 1, email := "a@x.com",
                          hashed_password := "h", is_active := true }]
          { payload := { sub := some "1", email := none, iat := 0, exp := 100 }
            key := "dev-secret-key-change-in-production", alg := "HS256" } 0
        = if u.is_active then .ok u
          else .error { status_code := 403, detail := "User account is inactive" }) ∧
    ((pyTruthy (some "1") = true ∨ pyTruthy (none : Option String) = true) →
      (pyTruthy (some "1") = true →
        get_user_by_id [{ user_id := 1, email := "a@x.com",
                          hashed_password := "h", is_active := true }]
            ((some "1").getD "") = none) →
      (pyTruthy (none : Option String) = true →
        get_user_by_email [{ user_id := 1, email := "a@x.com",
                             hashed_password := "h", is_active := true }]
            ((none : Option String).getD "") = none) →
      get_current_user [{ user_id := 1, email := "a@x.com",
                          hashed_password := "h", is_active := true }]
          { payload := { sub := some "1", email := none, iat := 0, exp := 100 }
            key := "dev-secret-key-change-in-production", alg := "HS256" } 0
        = .error { status_code := 401, detail := "User not found" }) :=
  c5_auth_dependency_resolution
    [{ user_id := 1, email := "a@x.com", hashed_password := "h", is_active := true }]
    { payload := { sub := some "1", email := none, iat := 0, exp := 100 }
      key := "dev-secret-key-change-in-production", alg := "HS256" } 0
    { sub := some "1", email := none, iat := 0, exp := 100 } rfl

/-- C7 counterexample: with user 1 already registered under `a@x.com`, the
pre-check path rejects a duplicate registration with 400 "Email already
registered", while the race path (pre-check sees an empty table, the commit
hits the unique constraint) rejects it with 409 "A user with this email
already exists" — two different errors, not the same one. -/
theorem c7_counterexample_duplicate_email_paths_differ :
    register [{ user_id := 1, email := "a@x.com", hashed_password := "h", is_active := true }]
        [{ user_id := 1, email := "a@x.com", hashed_password := "h", is_active := true }]
        2 "a@x.com" "longenough"
      = .error { status_code := 400, detail := "Email already registered" } ∧
    register []
        [{ user_id := 1, email := "a@x.com", hashed_password := "h", is_active := true }]
        2 "a@x.com" "longenough"
      = .error { status_code := 409, detail := "A user with this email already exists" } ∧
    ({ status_code := 400, detail := "Email already registered" } : HttpError)
      ≠ { status_code := 409, detail := "A user with this email already exists" } := by
  refine ⟨rfl, rfl, by decide⟩

/-- C7 amended: with an acceptable password, a duplicate email always fails
without crashing on both paths, but the two paths produce different errors:
the handler pre-check a 400, the caught unique-constraint violation a
409. -/
theorem c7_duplicate_email_both_paths_fail
    (dbAtCheck dbAtInsert : List User) (freshId : Nat) (email password : String)
    (hlen : ¬ password.length < 8) :
    ((get_user_by_email dbAtCheck email).isSome = true →
      register dbAtCheck dbAtInsert freshId email password
        = .error { status_code := 400, detail := "Email already registered" }) ∧
    ((get_user_by_email dbAtCheck email).isSome = false →
      dbAtInsert.any
          (fun u => u.email == (⟨pyLower (pyStrip email.data)⟩ : String)) = true →
      register dbAtCheck dbAtInsert freshId email password
        = .error { status_code := 409, detail := "A user with this email already exists" }) := by
  constructor
  · intro hpre
    unfold register
    rw [if_neg hlen, if_pos hpre]
  · intro hpre hconstraint
    unfold register
    rw [if_neg hlen, if_neg (by simp [hpre])]
    unfold create_user
    rw [if_pos hconstraint]

/-- Witness for C7 amended at the concrete duplicate `a@x.com`. -/
theorem c7_amended_witness :
    ((get_user_by_email
        [{ user_id := 1, email := "a@x.com", hashed_password := "h", is_active := true }]
        "a@x.com").isSome = true →
      register [{ user_id := 1, email := "a@x.com", hashed_password := "h", is_active := true }]
          [{ user_id := 1, email := "a@x.com", hashed_password := "h", is_active := true }]
          2 "a@x.com" "longenough"
        = .error { status_code := 400, detail := "Email already registered" }) ∧
    ((get_user_by_email
        [{ user_id := 1, email := "a@x.com", hashed_password := "h", is_active := true }]
        "a@x.com").isSome = false →
      [({ user_id := 1, email := "a@x.com", hashed_password := "h", is_active := true } : User)].any
          (fun u => u.email == (⟨pyLower (pyStrip "a@x.com".data)⟩ : String)) = true →
      register [{ user_id := 1, email := "a@x.com", hashed_password := "h", is_active := true }]
          [{ user_id := 1, email := "a@x.com", hashed_password := "h", is_active := true }]
          2 "a@x.com" "longenough"
        = .error { status_code := 409, detail := "A user with this email already exists" }) :=
  c7_duplicate_email_both_paths_fail
    [{ user_id := 1, email := "a@x.com", hashed_password := "h", is_active := true }]
    [{ user_id := 1, email := "a@x.com", hashed_password := "h", is_active := true }]
    2 "a@x.com" "longenough" (by decide)

/-- C8: decoding a freshly issued token (same clock instant, non-negative
effective TTL) yields the claim set with `sub` equal to the subject, `iat`
the issuance instant, `exp = iat + ttl` in epoch seconds, and — when a
nonempty email was supplied — that email.  A supplied TTL must be nonzero:
`timedelta(0)` is Python-falsy, so the source silently replaces it with the
configured default. -/
theorem c8_token_roundtrip
    (subject : String) (email : Option String) (expires_delta : Option Int)
    (now : Int)
    (hzero : expires_delta ≠ some 0)
    (hfresh : 0 ≤ expires_delta.getD (settings.access_token_expire_minutes * 60)) :
    decode_access_token (create_access_token subject email expires_delta now) now
      = .ok { sub := some subject
              email := match email with
                | some e => if e == "" then none else some e
                | none => none
              iat := now
              exp := now + expires_delta.getD (settings.access_token_expire_minutes * 60) } ∧
    (∀ e, email = some e → e ≠ "" →
      (create_access_token subject email expires_delta now).payload.email = some e) := by
  constructor
  · cases expires_delta with
    | some d =>
        have hd0 : ¬ (d = 0) := by
          intro h
          exact hzero (by rw [h])
        have hm : (0 : Int) ≤ d := by simpa [Option.getD] using hfresh
        unfold decode_access_token create_access_token
        cases email with
        | some e => simp [hm, hd0, Option.getD]
        | none => simp [hm, hd0, Option.getD]
    | none =>
        have hm : (0 : Int) ≤ settings.access_token_expire_minutes * 60 := by decide
        unfold decode_access_token create_access_token
        cases email with
        | some e => simp [hm, Option.getD]
        | none => simp [hm, Option.getD]
  · intro e he hne
    subst he
    unfold create_access_token
    simp [hne]

/-- Witness for C8: a token issued at epoch second 0 for subject "42" with
email `a@x.com` and the default TTL decodes to the expected claim set;
`exp = 0 + 30 * 60`. -/
theorem c8_witness :
    decode_access_token (create_access_token "42" (some "a@x.com") none 0) 0
      = .ok { sub := some "42"
              email := match (some "a@x.com" : Option String) with
                | some e => if e == "" then none else some e
                | none => none
              iat := 0
              exp := 0 + (none : Option Int).getD (settings.access_token_expire_minutes * 60) } ∧
    (∀ e, (some "a@x.com" : Option String) = some e → e ≠ "" →
      (create_access_token "42" (some "a@x.com") none 0).payload.email = some e) :=
  c8_token_roundtrip "42" (some "a@x.com") none 0 (by decide) (by decide)

end FastapiExpense
